import Mathlib

/-!
Verification of the skew_nvda script.

The script downloads six months of daily NVDA bars, adds a log_return
column (np.log of the Close column, diffed) and a rolling_skew column
(30-observation rolling skewness of log_return), saves a volume plot and
a rolling-skew plot into the docs directory, and prints the scalar
skewness of the log returns.

The embedding below models a pandas column as a list of optional reals
(none stands for an undefined entry, NaN in the float code), the
filesystem as an explicit state, and the network fetch as an explicit
outcome parameter.  Real numbers replace IEEE floats: the arithmetic is
the exact counterpart of the script's floating-point computation.
-/

namespace SkewNvda

/-- Daily bar of the downloaded price series: date, open, high, low,
close and volume, ordered by date. -/
structure Bar where
  date : Nat
  open_ : ℝ
  high : ℝ
  low : ℝ
  close : ℝ
  volume : ℝ

/-- Elementwise natural logarithm as np.log applies it to a close-price
column: a positive entry maps to its logarithm, any other entry maps to
an undefined value (NaN or -inf in the float code). -/
noncomputable def nplog (x : ℝ) : Option ℝ :=
  if 0 < x then some (Real.log x) else none

/-- Subtraction of column entries: undefined whenever either operand is
undefined, as NaN propagates through float subtraction. -/
noncomputable def osub : Option ℝ → Option ℝ → Option ℝ
  | some a, some b => some (a - b)
  | _, _ => none

/-- Pandas Series.diff: entry 0 is undefined, entry i is entry i minus
entry i-1 of the input column. -/
noncomputable def seriesDiff (xs : List (Option ℝ)) : List (Option ℝ) :=
  (List.range xs.length).map fun i =>
    if i = 0 then none else osub (xs.getD i none) (xs.getD (i - 1) none)

/-- Pandas skewness of a list of defined observations, following the
convention of pandas nanskew and the rolling kernel: fewer than three
observations give NaN (none here); a zero second central moment gives 0;
otherwise the adjusted Fisher-Pearson estimate
count * sqrt (count - 1) / (count - 2) * m3 / m2 ^ 1.5 with m2 and m3
the sums of squared and cubed deviations from the mean. -/
noncomputable def pandasSkew (xs : List ℝ) : Option ℝ :=
  if xs.length < 3 then none
  else
    let n : ℝ := xs.length
    let mean := xs.sum / n
    let m2 := (xs.map fun x => (x - mean) ^ 2).sum
    let m3 := (xs.map fun x => (x - mean) ^ 3).sum
    if m2 = 0 then some 0
    else some (n * Real.sqrt (n - 1) / (n - 2) * (m3 / (m2 * Real.sqrt m2)))

/-- Pandas Series.rolling(window).skew(): at position i the window holds
the entries at positions i+1-window to i; with the default min_periods
equal to window, the output is defined only when the window holds window
defined observations, and is then their pandas skewness. -/
noncomputable def rollingSkew (window : Nat) (xs : List (Option ℝ)) : List (Option ℝ) :=
  (List.range xs.length).map fun i =>
    let obs := ((xs.take (i + 1)).drop (i + 1 - window)).filterMap id
    if obs.length < window then none else pandasSkew obs

/-- DataFrame state after compute_data: the downloaded bars together with
the two derived columns, each aligned with the bar index. -/
structure Frame where
  bars : List Bar
  log_return : List (Option ℝ)
  rolling_skew : List (Option ℝ)

/-- Column construction of compute_data (source lines 33 to 34):
log_return is np.log of the Close column diffed, rolling_skew is the
30-window rolling skewness of log_return. -/
noncomputable def addColumns (bars : List Bar) : Frame :=
  let lr := seriesDiff ((bars.map Bar.close).map nplog)
  { bars := bars, log_return := lr, rolling_skew := rollingSkew 30 lr }

/-- Outcome of the network fetch: the remote source is unreachable, or it
answers with a (possibly empty) list of rows. -/
inductive FetchOutcome
  | unreachable
  | rows (bars : List Bar)

/-- Error kinds of the data fetch. -/
inductive FetchError
  | network
  | provider
deriving DecidableEq

/-- Modelled from the spec: the yfinance download call, whose body is not
part of this repository.  Per spec section 4.1 it fails with a network
error kind when the remote source is unreachable and with a provider
error kind when the source returns no rows, and otherwise yields the
price series. -/
noncomputable def yfDownload (symbol period interval : String) (w : FetchOutcome) :
    Except FetchError (List Bar) :=
  match symbol, period, interval, w with
  | _, _, _, FetchOutcome.unreachable => Except.error FetchError.network
  | _, _, _, FetchOutcome.rows [] => Except.error FetchError.provider
  | _, _, _, FetchOutcome.rows bars => Except.ok bars

/-- Hardcoded period constant of the script. -/
def PERIOD : String := "6mo"

/-- compute_data (source lines 26 to 35): download NVDA bars for the
period at daily interval, then add the log_return and rolling_skew
columns.  The script has no handler, so a fetch error propagates to the
caller unchanged. -/
noncomputable def compute_data (period : String) (w : FetchOutcome) :
    Except FetchError Frame :=
  match yfDownload "NVDA" period "1d" w with
  | Except.error e => Except.error e
  | Except.ok bars => Except.ok (addColumns bars)

/-- compute_skew (source lines 57 to 65): with data given, the skewness
of the dropna of its log_return column; with no data, fresh data is
downloaded first and any fetch error propagates. -/
noncomputable def compute_skew (w : FetchOutcome) (data : Option Frame)
    (period : String) : Except FetchError (Option ℝ) :=
  match data with
  | some df => Except.ok (pandasSkew (df.log_return.filterMap id))
  | none =>
    match compute_data period w with
    | Except.error e => Except.error e
    | Except.ok df => Except.ok (pandasSkew (df.log_return.filterMap id))

/-- Statement-level embedding of the body of compute_skew on a given
frame: the expression data.log_return.dropna().skew() reads the column,
builds a fresh series, and reduces it; no step writes into the frame, so
the frame state after the call is returned alongside the result. -/
noncomputable def compute_skew_run (df : Frame) : Option ℝ × Frame :=
  (pandasSkew (df.log_return.filterMap id), df)

/-- Rendered image: the title and the plotted points. -/
structure Image where
  title : String
  points : List ℝ

/-- Filesystem state: the directories present and the files present,
each file a path with its content. -/
structure FS where
  dirs : List String
  files : List (String × Image)

/-- Path.mkdir with exist_ok: creates the directory unless it already
exists. -/
def mkdirExistOk (d : String) (fs : FS) : FS :=
  if d ∈ fs.dirs then fs else { fs with dirs := d :: fs.dirs }

/-- plt.savefig: writes the image at the path, overwriting any prior
file there. -/
def writeFile (p : String) (img : Image) (fs : FS) : FS :=
  { fs with files := (p, img) :: fs.files.filter fun e => e.1 != p }

/-- Content of the filesystem at a path. -/
def FS.read (fs : FS) (p : String) : Option Image :=
  (fs.files.find? fun e => e.1 == p).map Prod.snd

/-- save_plots (source lines 38 to 54): ensure the docs directory
exists, then save the volume plot and the dropna of the rolling_skew
column plot under fixed names.  Rendering internals are abstracted into
the Image value; the function returns no value. -/
noncomputable def save_plots (data : Frame) (fs : FS) : Unit × FS :=
  let fs1 := mkdirExistOk "docs" fs
  let volImg : Image :=
    { title := "NVDA Daily Volume - Last 6 Months", points := data.bars.map Bar.volume }
  let fs2 := writeFile "docs/nvda_volume.png" volImg fs1
  let skewImg : Image :=
    { title := "NVDA 30-Day Rolling Skew - Last 6 Months",
      points := data.rolling_skew.filterMap id }
  let fs3 := writeFile "docs/nvda_skew.png" skewImg fs2
  ((), fs3)

/-- Statement-level embedding of save_plots that also returns the frame
state after the call: the body only reads the Volume and rolling_skew
columns, so the frame passes through every step unchanged. -/
noncomputable def save_plots_run (data : Frame) (fs : FS) : Unit × Frame × FS :=
  ((save_plots data fs).1, data, (save_plots data fs).2)

/-- Observable step of the entry point. -/
inductive Step
  | fetch (symbol period interval : String)
  | transform
  | render
  | printed (msg : String) (value : Option ℝ)

/-- Whether a step is a line printed on standard output. -/
def Step.isPrinted : Step → Bool
  | Step.printed _ _ => true
  | _ => false

/-- Text of the single line the script prints. -/
def mainMessage : String :=
  "NVDA daily log return skewness over the last six months: "

/-- Entry point (source lines 68 to 72): compute_data, save_plots on the
frame, compute_skew on the frame, and one printed line with the scalar
skewness.  The trace records the observable steps in order; a fetch
error propagates uncaught. -/
noncomputable def mainRun (w : FetchOutcome) (fs : FS) :
    Except FetchError (List Step × FS) :=
  match compute_data PERIOD w with
  | Except.error e => Except.error e
  | Except.ok df =>
    let fs1 := (save_plots df fs).2
    match compute_skew w (some df) PERIOD with
    | Except.error e => Except.error e
    | Except.ok v =>
      Except.ok
        ([Step.fetch "NVDA" PERIOD "1d", Step.transform, Step.render,
          Step.printed mainMessage v], fs1)

/-- The Log Return Series exactly as the spec words it: one fewer element
than the price series, the value at position t being the natural
logarithm of the ratio of consecutive closes. -/
noncomputable def specLogReturns (closes : List ℝ) : List ℝ :=
  (List.range (closes.length - 1)).map fun t =>
    Real.log (closes.getD (t + 1) 0 / closes.getD t 0)

/-- The log_return column construction applied to a bare close column. -/
noncomputable def logReturnCol (closes : List ℝ) : List (Option ℝ) :=
  seriesDiff (closes.map nplog)

/-- Hand-computed mean of the four reference log returns of the
synthetic price series 100, 105, 102, 108, 103. -/
noncomputable def refMean : ℝ :=
  (Real.log (105 / 100) + Real.log (102 / 105) + Real.log (108 / 102) +
    Real.log (103 / 108)) / 4

/-- Hand-computed reference skewness of the synthetic price series: the
adjusted Fisher-Pearson third standardized moment written out by hand on
the four reference log returns, with n = 4, m2 and m3 the sums of
squared and cubed deviations from the mean. -/
noncomputable def refSkew : ℝ :=
  4 * Real.sqrt (4 - 1) / (4 - 2) *
    (((Real.log (105 / 100) - refMean) ^ 3 + (Real.log (102 / 105) - refMean) ^ 3 +
        (Real.log (108 / 102) - refMean) ^ 3 + (Real.log (103 / 108) - refMean) ^ 3) /
      (((Real.log (105 / 100) - refMean) ^ 2 + (Real.log (102 / 105) - refMean) ^ 2 +
          (Real.log (108 / 102) - refMean) ^ 2 + (Real.log (103 / 108) - refMean) ^ 2) *
        Real.sqrt ((Real.log (105 / 100) - refMean) ^ 2 +
          (Real.log (102 / 105) - refMean) ^ 2 + (Real.log (108 / 102) - refMean) ^ 2 +
          (Real.log (103 / 108) - refMean) ^ 2)))

theorem log_return_addColumns (bars : List Bar) :
    (addColumns bars).log_return = logReturnCol (bars.map Bar.close) := rfl

theorem rolling_skew_addColumns (bars : List Bar) :
    (addColumns bars).rolling_skew = rollingSkew 30 (logReturnCol (bars.map Bar.close)) := rfl

theorem length_seriesDiff (xs : List (Option ℝ)) : (seriesDiff xs).length = xs.length := by
  simp [seriesDiff]

theorem length_logReturnCol (closes : List ℝ) :
    (logReturnCol closes).length = closes.length := by
  simp [logReturnCol, length_seriesDiff]

theorem getD_seriesDiff (xs : List (Option ℝ)) (i : Nat) (h : i < xs.length) :
    (seriesDiff xs).getD i none =
      if i = 0 then none else osub (xs.getD i none) (xs.getD (i - 1) none) := by
  have h2 : i < (seriesDiff xs).length := by rw [length_seriesDiff]; exact h
  rw [List.getD_eq_getElem _ _ h2]
  simp [seriesDiff]

theorem getD_mem (l : List ℝ) (j : Nat) (h : j < l.length) : l.getD j 0 ∈ l := by
  rw [List.getD_eq_getElem _ _ h]
  exact List.getElem_mem h

theorem getD_map_nplog (closes : List ℝ) (j : Nat) (h : j < closes.length) :
    (closes.map nplog).getD j none = nplog (closes.getD j 0) := by
  have h2 : j < (closes.map nplog).length := by simpa using h
  rw [List.getD_eq_getElem _ _ h2, List.getD_eq_getElem _ _ h]
  simp

theorem getD_map_nplog_pos (closes : List ℝ) (hpos : ∀ c ∈ closes, 0 < c) (j : Nat)
    (h : j < closes.length) :
    (closes.map nplog).getD j none = some (Real.log (closes.getD j 0)) := by
  rw [getD_map_nplog closes j h, nplog, if_pos (hpos _ (getD_mem closes j h))]

theorem getD_logReturnCol_zero (closes : List ℝ) (h : closes ≠ []) :
    (logReturnCol closes).getD 0 none = none := by
  have h0 : 0 < (closes.map nplog).length := by
    simpa using List.length_pos.mpr h
  rw [logReturnCol, getD_seriesDiff _ 0 h0, if_pos rfl]

theorem getD_logReturnCol_succ (closes : List ℝ) (hpos : ∀ c ∈ closes, 0 < c) (i : Nat)
    (h : i + 1 < closes.length) :
    (logReturnCol closes).getD (i + 1) none =
      some (Real.log (closes.getD (i + 1) 0) - Real.log (closes.getD i 0)) := by
  have h2 : i + 1 < (closes.map nplog).length := by simpa using h
  rw [logReturnCol, getD_seriesDiff _ _ h2, if_neg (Nat.succ_ne_zero i)]
  rw [Nat.add_sub_cancel]
  rw [getD_map_nplog_pos closes hpos (i + 1) h,
    getD_map_nplog_pos closes hpos i (Nat.lt_of_succ_lt h)]
  rfl

theorem isSome_getD_logReturnCol (closes : List ℝ) (hpos : ∀ c ∈ closes, 0 < c) (i : Nat)
    (h1 : 1 ≤ i) (h : i < closes.length) :
    ((logReturnCol closes).getD i none).isSome = true := by
  obtain ⟨j, rfl⟩ : ∃ j, i = j + 1 := ⟨i - 1, by omega⟩
  rw [getD_logReturnCol_succ closes hpos j h]
  rfl

theorem length_filterMap_id (l : List (Option ℝ)) (h : ∀ x ∈ l, x.isSome = true) :
    (l.filterMap id).length = l.length := by
  induction l with
  | nil => rfl
  | cons a t ih =>
    cases a with
    | none => exact absurd (h none (List.mem_cons_self _ _)) (by simp)
    | some v =>
      rw [List.filterMap_cons_some (rfl : id (some v) = some v)]
      simp only [List.length_cons]
      rw [ih fun x hx => h x (List.mem_cons_of_mem _ hx)]

theorem filterMap_eq_map_of_forall_some {α β : Type} (l : List α) (g : α → Option β)
    (f : α → β) (h : ∀ a ∈ l, g a = some (f a)) : l.filterMap g = l.map f := by
  induction l with
  | nil => rfl
  | cons a t ih =>
    rw [List.filterMap_cons_some (h a (List.mem_cons_self _ _)), List.map_cons,
      ih fun x hx => h x (List.mem_cons_of_mem _ hx)]

theorem logReturnCol_cons (c : ℝ) (rest : List ℝ) :
    logReturnCol (c :: rest) =
      none :: (List.range rest.length).map fun j =>
        osub (((c :: rest).map nplog).getD (j + 1) none)
          (((c :: rest).map nplog).getD j none) := by
  unfold logReturnCol seriesDiff
  rw [List.length_map, List.length_cons, List.range_succ_eq_map, List.map_cons, List.map_map]
  refine congrArg₂ _ (if_pos rfl) ?_
  refine List.map_congr_left fun j _ => ?_
  simp [Function.comp, Nat.succ_ne_zero]

theorem isSome_osub_range_map (closes : List ℝ) (hpos : ∀ c ∈ closes, 0 < c)
    (m : Nat) (hm : m + 1 = closes.length) :
    ∀ x ∈ (List.range m).map fun j =>
        osub ((closes.map nplog).getD (j + 1) none) ((closes.map nplog).getD j none),
      x.isSome = true := by
  intro x hx
  obtain ⟨j, hj, rfl⟩ := List.mem_map.mp hx
  have hj2 : j + 1 < closes.length := by
    have := List.mem_range.mp hj; omega
  rw [getD_map_nplog_pos closes hpos (j + 1) hj2,
    getD_map_nplog_pos closes hpos j (Nat.lt_of_succ_lt hj2)]
  rfl

theorem length_filterMap_logReturnCol (closes : List ℝ) (hpos : ∀ c ∈ closes, 0 < c) :
    ((logReturnCol closes).filterMap id).length = closes.length - 1 := by
  cases closes with
  | nil => rfl
  | cons c rest =>
    rw [logReturnCol_cons, List.filterMap_cons_none (rfl : id none = none)]
    rw [length_filterMap_id _ (isSome_osub_range_map (c :: rest) hpos rest.length (by simp))]
    simp

theorem filterMap_logReturnCol_eq_spec (closes : List ℝ) (hpos : ∀ c ∈ closes, 0 < c) :
    (logReturnCol closes).filterMap id = specLogReturns closes := by
  cases closes with
  | nil => rfl
  | cons c rest =>
    rw [logReturnCol_cons, List.filterMap_cons_none (rfl : id none = none),
      List.filterMap_map]
    rw [specLogReturns, List.length_cons, Nat.add_sub_cancel]
    refine filterMap_eq_map_of_forall_some _ _ _ fun j hj => ?_
    have hj2 : j + 1 < (c :: rest).length := by
      have := List.mem_range.mp hj; simp; omega
    have hpos1 : 0 < (c :: rest).getD (j + 1) 0 := hpos _ (getD_mem _ _ hj2)
    have hpos0 : 0 < (c :: rest).getD j 0 := hpos _ (getD_mem _ _ (Nat.lt_of_succ_lt hj2))
    show osub _ _ = _
    rw [getD_map_nplog_pos _ hpos (j + 1) hj2,
      getD_map_nplog_pos _ hpos j (Nat.lt_of_succ_lt hj2)]
    show some _ = some _
    rw [Real.log_div (ne_of_gt hpos1) (ne_of_gt hpos0)]

theorem isSome_pandasSkew (xs : List ℝ) (h : 3 ≤ xs.length) :
    (pandasSkew xs).isSome = true := by
  unfold pandasSkew
  rw [if_neg (by omega)]
  dsimp only
  split <;> rfl

theorem none_pandasSkew (xs : List ℝ) (h : xs.length < 3) : pandasSkew xs = none := by
  unfold pandasSkew
  rw [if_pos h]

theorem length_rollingSkew (w : Nat) (xs : List (Option ℝ)) :
    (rollingSkew w xs).length = xs.length := by
  simp [rollingSkew]

theorem getD_rollingSkew (w : Nat) (xs : List (Option ℝ)) (i : Nat) (h : i < xs.length) :
    (rollingSkew w xs).getD i none =
      if (((xs.take (i + 1)).drop (i + 1 - w)).filterMap id).length < w then none
      else pandasSkew (((xs.take (i + 1)).drop (i + 1 - w)).filterMap id) := by
  have h2 : i < (rollingSkew w xs).length := by rw [length_rollingSkew]; exact h
  rw [List.getD_eq_getElem _ _ h2]
  simp [rollingSkew]

theorem rollingSkew_undefined_early (closes : List ℝ) (i : Nat) (hi : i < closes.length)
    (h30 : i < 30) :
    (rollingSkew 30 (logReturnCol closes)).getD i none = none := by
  have hlen : i < (logReturnCol closes).length := by rw [length_logReturnCol]; exact hi
  have hz : i + 1 - 30 = 0 := by omega
  rw [getD_rollingSkew 30 _ i hlen, hz, List.drop_zero]
  obtain ⟨c, rest, rfl⟩ : ∃ c rest, closes = c :: rest := by
    cases closes with
    | nil => exact absurd hi (by simp)
    | cons c rest => exact ⟨c, rest, rfl⟩
  rw [logReturnCol_cons, List.take_succ_cons, List.filterMap_cons_none (rfl : id none = none)]
  have h1 := List.length_filterMap_le (id : Option ℝ → Option ℝ)
    (((List.range rest.length).map fun j =>
      osub (((c :: rest).map nplog).getD (j + 1) none)
        (((c :: rest).map nplog).getD j none)).take i)
  have h2 := List.length_take_le i
    ((List.range rest.length).map fun j =>
      osub (((c :: rest).map nplog).getD (j + 1) none)
        (((c :: rest).map nplog).getD j none))
  rw [if_pos (by omega)]

theorem rollingSkew_defined_late (closes : List ℝ) (hpos : ∀ c ∈ closes, 0 < c) (i : Nat)
    (hi : i < closes.length) (h30 : 30 ≤ i) :
    ((rollingSkew 30 (logReturnCol closes)).getD i none).isSome = true := by
  have hlen : i < (logReturnCol closes).length := by rw [length_logReturnCol]; exact hi
  rw [getD_rollingSkew 30 _ i hlen]
  have hsllen : (((logReturnCol closes).take (i + 1)).drop (i + 1 - 30)).length = 30 := by
    rw [List.length_drop, List.length_take, length_logReturnCol]; omega
  have hall : ∀ x ∈ ((logReturnCol closes).take (i + 1)).drop (i + 1 - 30),
      x.isSome = true := by
    intro x hx
    obtain ⟨j, hj, rfl⟩ := List.mem_iff_getElem.mp hx
    rw [List.getElem_drop, List.getElem_take]
    have hk1 : 1 ≤ i + 1 - 30 + j := by omega
    have hk2 : i + 1 - 30 + j < closes.length := by
      rw [hsllen] at hj; omega
    have hk3 : i + 1 - 30 + j < (logReturnCol closes).length := by
      rw [length_logReturnCol]; exact hk2
    rw [← List.getD_eq_getElem _ none hk3]
    exact isSome_getD_logReturnCol closes hpos _ hk1 hk2
  have hobs : ((((logReturnCol closes).take (i + 1)).drop (i + 1 - 30)).filterMap id).length
      = 30 := by
    rw [length_filterMap_id _ hall, hsllen]
  rw [if_neg (by omega)]
  exact isSome_pandasSkew _ (by omega)

theorem read_writeFile_same (p : String) (img : Image) (fs : FS) :
    (writeFile p img fs).read p = some img := by
  unfold writeFile FS.read
  rw [List.find?_cons_of_pos _ (by simp)]
  rfl

theorem find?_filter_ne (l : List (String × Image)) (p q : String) (h : q ≠ p) :
    ((l.filter fun e => e.1 != p).find? fun e => e.1 == q) =
      (l.find? fun e => e.1 == q) := by
  induction l with
  | nil => rfl
  | cons a t ih =>
    by_cases hap : a.1 = p
    · rw [List.filter_cons_of_neg (by simp [hap]),
        List.find?_cons_of_neg _ (by simp [hap]; exact fun hq => h hq.symm)]
      exact ih
    · rw [List.filter_cons_of_pos (by simp [hap])]
      by_cases haq : a.1 = q
      · rw [List.find?_cons_of_pos _ (by simp [haq]), List.find?_cons_of_pos _ (by simp [haq])]
      · rw [List.find?_cons_of_neg _ (by simp [haq]), List.find?_cons_of_neg _ (by simp [haq])]
        exact ih

theorem read_writeFile_other (p q : String) (img : Image) (fs : FS) (h : q ≠ p) :
    (writeFile p img fs).read q = fs.read q := by
  unfold writeFile FS.read
  rw [List.find?_cons_of_neg _ (by simp; exact fun hq => h hq.symm)]
  rw [find?_filter_ne fs.files p q h]

theorem files_mkdirExistOk (d : String) (fs : FS) :
    (mkdirExistOk d fs).files = fs.files := by
  unfold mkdirExistOk
  split <;> rfl

theorem read_mkdirExistOk (d : String) (fs : FS) (q : String) :
    (mkdirExistOk d fs).read q = fs.read q := by
  unfold FS.read
  rw [files_mkdirExistOk]

theorem dirs_writeFile (p : String) (img : Image) (fs : FS) :
    (writeFile p img fs).dirs = fs.dirs := rfl

theorem save_plots_eq (data : Frame) (fs : FS) :
    save_plots data fs =
      ((), writeFile "docs/nvda_skew.png"
        (Image.mk "NVDA 30-Day Rolling Skew - Last 6 Months" (data.rolling_skew.filterMap id))
        (writeFile "docs/nvda_volume.png"
          (Image.mk "NVDA Daily Volume - Last 6 Months" (data.bars.map Bar.volume))
          (mkdirExistOk "docs" fs))) := rfl

/-- Synthetic five-bar price series with closes 100, 105, 102, 108, 103,
the fixed series named by the spec's testable properties. -/
noncomputable def sampleBars : List Bar :=
  [Bar.mk 0 100 100 100 100 0, Bar.mk 1 105 105 105 105 0, Bar.mk 2 102 102 102 102 0,
    Bar.mk 3 108 108 108 108 0, Bar.mk 4 103 103 103 103 0]

theorem sampleBars_pos : ∀ b ∈ sampleBars, 0 < b.close := by
  intro b hb
  simp only [sampleBars, List.mem_cons, List.not_mem_nil, or_false] at hb
  rcases hb with rfl | rfl | rfl | rfl | rfl <;> norm_num

/-- Synthetic three-bar price series: its log_return column holds only
two defined values. -/
noncomputable def sampleBars3 : List Bar :=
  [Bar.mk 0 100 100 100 100 0, Bar.mk 1 105 105 105 105 0, Bar.mk 2 102 102 102 102 0]

theorem sampleBars3_pos : ∀ b ∈ sampleBars3, 0 < b.close := by
  intro b hb
  simp only [sampleBars3, List.mem_cons, List.not_mem_nil, or_false] at hb
  rcases hb with rfl | rfl | rfl <;> norm_num

/-- Constant price series of forty bars with close 1. -/
noncomputable def flatBars : List Bar :=
  List.replicate 40 (Bar.mk 0 1 1 1 1 1)

theorem flatBars_pos : ∀ b ∈ flatBars, 0 < b.close := by
  intro b hb
  rw [(List.mem_replicate.mp hb).2]
  norm_num

theorem map_close_pos (bars : List Bar) (hpos : ∀ b ∈ bars, 0 < b.close) :
    ∀ c ∈ bars.map Bar.close, 0 < c := by
  intro c hc
  obtain ⟨b, hb, rfl⟩ := List.mem_map.mp hc
  exact hpos b hb

theorem getD_logReturnCol_ratio (closes : List ℝ) (hpos : ∀ c ∈ closes, 0 < c) (i : Nat)
    (h : i + 1 < closes.length) :
    (logReturnCol closes).getD (i + 1) none =
      some (Real.log (closes.getD (i + 1) 0 / closes.getD i 0)) := by
  rw [getD_logReturnCol_succ closes hpos i h,
    Real.log_div (ne_of_gt (hpos _ (getD_mem _ _ h)))
      (ne_of_gt (hpos _ (getD_mem _ _ (Nat.lt_of_succ_lt h))))]

theorem sampleCloses : sampleBars.map Bar.close = [100, 105, 102, 108, 103] := rfl

theorem spec_sample :
    specLogReturns (sampleBars.map Bar.close) =
      [Real.log (105 / 100), Real.log (102 / 105), Real.log (108 / 102),
        Real.log (103 / 108)] := rfl

theorem refM2_ne :
    (Real.log (105 / 100) - refMean) ^ 2 + (Real.log (102 / 105) - refMean) ^ 2 +
      (Real.log (108 / 102) - refMean) ^ 2 + (Real.log (103 / 108) - refMean) ^ 2 ≠ 0 := by
  intro hz
  have h1 : 0 < Real.log (105 / 100) := Real.log_pos (by norm_num)
  have h2 : Real.log (102 / 105) < 0 := Real.log_neg (by norm_num) (by norm_num)
  have e1 : (Real.log (105 / 100) - refMean) ^ 2 = 0 := by
    nlinarith [sq_nonneg (Real.log (105 / 100) - refMean),
      sq_nonneg (Real.log (102 / 105) - refMean),
      sq_nonneg (Real.log (108 / 102) - refMean),
      sq_nonneg (Real.log (103 / 108) - refMean)]
  have e2 : (Real.log (102 / 105) - refMean) ^ 2 = 0 := by
    nlinarith [sq_nonneg (Real.log (105 / 100) - refMean),
      sq_nonneg (Real.log (102 / 105) - refMean),
      sq_nonneg (Real.log (108 / 102) - refMean),
      sq_nonneg (Real.log (103 / 108) - refMean)]
  have q1 : Real.log (105 / 100) - refMean = 0 := sq_eq_zero_iff.mp e1
  have q2 : Real.log (102 / 105) - refMean = 0 := sq_eq_zero_iff.mp e2
  linarith

theorem pandasSkew_four (a b c d : ℝ)
    (hm2 : (a - (a + (b + (c + d))) / 4) ^ 2 +
        ((b - (a + (b + (c + d))) / 4) ^ 2 +
          ((c - (a + (b + (c + d))) / 4) ^ 2 + (d - (a + (b + (c + d))) / 4) ^ 2)) ≠ 0) :
    pandasSkew [a, b, c, d] =
      some (4 * Real.sqrt (4 - 1) / (4 - 2) *
        (((a - (a + (b + (c + d))) / 4) ^ 3 +
            ((b - (a + (b + (c + d))) / 4) ^ 3 +
              ((c - (a + (b + (c + d))) / 4) ^ 3 + (d - (a + (b + (c + d))) / 4) ^ 3))) /
          (((a - (a + (b + (c + d))) / 4) ^ 2 +
              ((b - (a + (b + (c + d))) / 4) ^ 2 +
                ((c - (a + (b + (c + d))) / 4) ^ 2 + (d - (a + (b + (c + d))) / 4) ^ 2))) *
            Real.sqrt ((a - (a + (b + (c + d))) / 4) ^ 2 +
              ((b - (a + (b + (c + d))) / 4) ^ 2 +
                ((c - (a + (b + (c + d))) / 4) ^ 2 +
                  (d - (a + (b + (c + d))) / 4) ^ 2)))))) := by
  unfold pandasSkew
  rw [if_neg (by norm_num)]
  dsimp only
  simp only [List.map_cons, List.map_nil, List.sum_cons, List.sum_nil, List.length_cons,
    List.length_nil, add_zero]
  have hc : ((0 + 1 + 1 + 1 + 1 : ℕ) : ℝ) = 4 := by norm_num
  rw [hc, if_neg hm2]

theorem pandasSkew_sample :
    pandasSkew [Real.log (105 / 100), Real.log (102 / 105), Real.log (108 / 102),
      Real.log (103 / 108)] = some refSkew := by
  have hmean : (Real.log (105 / 100) + (Real.log (102 / 105) + (Real.log (108 / 102) +
      Real.log (103 / 108)))) / 4 = refMean := by
    unfold refMean; ring
  have hne : (Real.log (105 / 100) - (Real.log (105 / 100) + (Real.log (102 / 105) +
        (Real.log (108 / 102) + Real.log (103 / 108)))) / 4) ^ 2 +
      ((Real.log (102 / 105) - (Real.log (105 / 100) + (Real.log (102 / 105) +
        (Real.log (108 / 102) + Real.log (103 / 108)))) / 4) ^ 2 +
        ((Real.log (108 / 102) - (Real.log (105 / 100) + (Real.log (102 / 105) +
          (Real.log (108 / 102) + Real.log (103 / 108)))) / 4) ^ 2 +
          (Real.log (103 / 108) - (Real.log (105 / 100) + (Real.log (102 / 105) +
            (Real.log (108 / 102) + Real.log (103 / 108)))) / 4) ^ 2)) ≠ 0 := by
    rw [hmean]
    intro h0
    exact refM2_ne (by linear_combination h0)
  rw [pandasSkew_four _ _ _ _ hne, hmean]
  unfold refSkew
  set r1 := Real.log (105 / 100)
  set r2 := Real.log (102 / 105)
  set r3 := Real.log (108 / 102)
  set r4 := Real.log (103 / 108)
  have e2 : (r1 - refMean) ^ 2 + ((r2 - refMean) ^ 2 + ((r3 - refMean) ^ 2 +
      (r4 - refMean) ^ 2)) = (r1 - refMean) ^ 2 + (r2 - refMean) ^ 2 +
      (r3 - refMean) ^ 2 + (r4 - refMean) ^ 2 := by ring
  have e3 : (r1 - refMean) ^ 3 + ((r2 - refMean) ^ 3 + ((r3 - refMean) ^ 3 +
      (r4 - refMean) ^ 3)) = (r1 - refMean) ^ 3 + (r2 - refMean) ^ 3 +
      (r3 - refMean) ^ 3 + (r4 - refMean) ^ 3 := by ring
  rw [e2, e3]

theorem computed_skew_sample :
    compute_skew (FetchOutcome.rows []) (some (addColumns sampleBars)) PERIOD =
      Except.ok (some refSkew) := by
  show Except.ok (pandasSkew ((addColumns sampleBars).log_return.filterMap id)) = _
  rw [log_return_addColumns,
    filterMap_logReturnCol_eq_spec _ (map_close_pos sampleBars sampleBars_pos),
    spec_sample, pandasSkew_sample]

/-- C1: for every price series with positive closes, the rolling_skew
column built by compute_data is undefined at every frame position below
30 (the position of the undefined leading log return plus the first 29
positions of the Log Return Series) and carries exactly one defined
value at every later position.  Positions index the frame; position t of
the Log Return Series is frame position t, its first defined entry being
at frame position 1. -/
theorem c1_rolling_skew_window (bars : List Bar) (hpos : ∀ b ∈ bars, 0 < b.close)
    (i : Nat) (hi : i < bars.length) :
    (i < 30 → (addColumns bars).rolling_skew.getD i none = none) ∧
    (30 ≤ i → ((addColumns bars).rolling_skew.getD i none).isSome = true) := by
  have hlen : i < (bars.map Bar.close).length := by simpa using hi
  rw [rolling_skew_addColumns]
  exact ⟨fun h30 => rollingSkew_undefined_early _ i hlen h30,
    fun h30 => rollingSkew_defined_late _ (map_close_pos bars hpos) i hlen h30⟩

/-- Witness for C1 on the forty-bar constant series: undefined at
position 5, defined at position 35. -/
theorem c1_witness :
    (addColumns flatBars).rolling_skew.getD 5 none = none ∧
    ((addColumns flatBars).rolling_skew.getD 35 none).isSome = true :=
  ⟨(c1_rolling_skew_window flatBars flatBars_pos 5 (by simp [flatBars])).1 (by norm_num),
    (c1_rolling_skew_window flatBars flatBars_pos 35 (by simp [flatBars])).2 (by norm_num)⟩

/-- C2: for every non-empty price series with positive closes, the
log_return column has the length of the price series, is undefined at
position 0 (the first date), is defined at every later position, and
after the dropna that compute_skew applies exactly length minus one
values remain. -/
theorem c2_log_return_shape (bars : List Bar) (hne : bars ≠ [])
    (hpos : ∀ b ∈ bars, 0 < b.close) :
    (addColumns bars).log_return.length = bars.length ∧
    (addColumns bars).log_return.getD 0 none = none ∧
    (∀ i, 1 ≤ i → i < bars.length →
      ((addColumns bars).log_return.getD i none).isSome = true) ∧
    ((addColumns bars).log_return.filterMap id).length = bars.length - 1 := by
  have hpos2 := map_close_pos bars hpos
  rw [log_return_addColumns]
  refine ⟨?_, ?_, ?_, ?_⟩
  · rw [length_logReturnCol, List.length_map]
  · exact getD_logReturnCol_zero _ (by simpa using hne)
  · intro i h1 hi
    exact isSome_getD_logReturnCol _ hpos2 i h1 (by simpa using hi)
  · rw [length_filterMap_logReturnCol _ hpos2, List.length_map]

/-- Witness for C2 on the five-bar synthetic series. -/
theorem c2_witness :
    (addColumns sampleBars).log_return.length = sampleBars.length ∧
    (addColumns sampleBars).log_return.getD 0 none = none ∧
    (∀ i, 1 ≤ i → i < sampleBars.length →
      ((addColumns sampleBars).log_return.getD i none).isSome = true) ∧
    ((addColumns sampleBars).log_return.filterMap id).length = sampleBars.length - 1 :=
  c2_log_return_shape sampleBars (by simp [sampleBars]) sampleBars_pos

/-- C3: for every price series with positive closes, the log return at
every position after the first equals the natural logarithm of the ratio
of the close at that position to the close at the previous position; and
on the fixed synthetic series 100, 105, 102, 108, 103 the four computed
log returns and the computed scalar skewness each lie within 1e-9 of
their hand-computed reference values (the exact embedding gives
equality, hence the bound). -/
theorem c3_log_return_value (bars : List Bar) (hpos : ∀ b ∈ bars, 0 < b.close)
    (i : Nat) (hi : i + 1 < bars.length) :
    ((addColumns bars).log_return.getD (i + 1) none =
      some (Real.log
        ((bars.map Bar.close).getD (i + 1) 0 / (bars.map Bar.close).getD i 0))) ∧
    (∃ r, (addColumns sampleBars).log_return.getD 1 none = some r ∧
      |r - Real.log (105 / 100)| < 1e-9) ∧
    (∃ r, (addColumns sampleBars).log_return.getD 2 none = some r ∧
      |r - Real.log (102 / 105)| < 1e-9) ∧
    (∃ r, (addColumns sampleBars).log_return.getD 3 none = some r ∧
      |r - Real.log (108 / 102)| < 1e-9) ∧
    (∃ r, (addColumns sampleBars).log_return.getD 4 none = some r ∧
      |r - Real.log (103 / 108)| < 1e-9) ∧
    (∃ s, compute_skew (FetchOutcome.rows []) (some (addColumns sampleBars)) PERIOD =
      Except.ok (some s) ∧ |s - refSkew| < 1e-9) := by
  have hpos2 := map_close_pos bars hpos
  have hi2 : i + 1 < (bars.map Bar.close).length := by simpa using hi
  have hspos := map_close_pos sampleBars sampleBars_pos
  have hslen : (sampleBars.map Bar.close).length = 5 := by rw [sampleCloses]; rfl
  refine ⟨?_, ?_, ?_, ?_, ?_, ?_⟩
  · rw [log_return_addColumns, getD_logReturnCol_ratio _ hpos2 i hi2]
  · refine ⟨Real.log (105 / 100), ?_, by rw [sub_self, abs_zero]; norm_num⟩
    rw [log_return_addColumns,
      getD_logReturnCol_ratio _ hspos 0 (by rw [hslen]; norm_num), sampleCloses]
    rfl
  · refine ⟨Real.log (102 / 105), ?_, by rw [sub_self, abs_zero]; norm_num⟩
    show (logReturnCol (sampleBars.map Bar.close)).getD (1 + 1) none = _
    rw [getD_logReturnCol_ratio _ hspos 1 (by rw [hslen]; norm_num), sampleCloses]
    rfl
  · refine ⟨Real.log (108 / 102), ?_, by rw [sub_self, abs_zero]; norm_num⟩
    show (logReturnCol (sampleBars.map Bar.close)).getD (2 + 1) none = _
    rw [getD_logReturnCol_ratio _ hspos 2 (by rw [hslen]; norm_num), sampleCloses]
    rfl
  · refine ⟨Real.log (103 / 108), ?_, by rw [sub_self, abs_zero]; norm_num⟩
    show (logReturnCol (sampleBars.map Bar.close)).getD (3 + 1) none = _
    rw [getD_logReturnCol_ratio _ hspos 3 (by rw [hslen]; norm_num), sampleCloses]
    rfl
  · exact ⟨refSkew, computed_skew_sample, by rw [sub_self, abs_zero]; norm_num⟩

/-- Witness for C3: the general clause at position 1 of the synthetic
series 100, 105, 102, 108, 103, together with the reference comparisons
of all four log returns and of the scalar skewness on that series. -/
theorem c3_witness :
    ((addColumns sampleBars).log_return.getD (0 + 1) none =
      some (Real.log
        ((sampleBars.map Bar.close).getD (0 + 1) 0 /
          (sampleBars.map Bar.close).getD 0 0))) ∧
    (∃ r, (addColumns sampleBars).log_return.getD 1 none = some r ∧
      |r - Real.log (105 / 100)| < 1e-9) ∧
    (∃ r, (addColumns sampleBars).log_return.getD 2 none = some r ∧
      |r - Real.log (102 / 105)| < 1e-9) ∧
    (∃ r, (addColumns sampleBars).log_return.getD 3 none = some r ∧
      |r - Real.log (108 / 102)| < 1e-9) ∧
    (∃ r, (addColumns sampleBars).log_return.getD 4 none = some r ∧
      |r - Real.log (103 / 108)| < 1e-9) ∧
    (∃ s, compute_skew (FetchOutcome.rows []) (some (addColumns sampleBars)) PERIOD =
      Except.ok (some s) ∧ |s - refSkew| < 1e-9) :=
  c3_log_return_value sampleBars sampleBars_pos 0 (by rw [sampleBars]; norm_num)

/-- C4: compute_skew on a frame built by compute_data returns the pandas
sample skewness of the entire Log Return Series as the spec defines it,
that is of all defined log-return values once the undefined leading
entry is dropped. -/
theorem c4_compute_skew_spec (w : FetchOutcome) (period : String) (bars : List Bar)
    (hpos : ∀ b ∈ bars, 0 < b.close) :
    compute_skew w (some (addColumns bars)) period =
      Except.ok (pandasSkew (specLogReturns (bars.map Bar.close))) := by
  show Except.ok (pandasSkew ((addColumns bars).log_return.filterMap id)) = _
  rw [log_return_addColumns, filterMap_logReturnCol_eq_spec _ (map_close_pos bars hpos)]

/-- Witness for C4 on the five-bar synthetic series. -/
theorem c4_witness :
    compute_skew (FetchOutcome.rows []) (some (addColumns sampleBars)) PERIOD =
      Except.ok (pandasSkew (specLogReturns (sampleBars.map Bar.close))) :=
  c4_compute_skew_spec (FetchOutcome.rows []) PERIOD sampleBars sampleBars_pos

/-- C5: with the fetch modelled from the spec, compute_data fails with
the network error kind when the remote source is unreachable and with
the provider error kind when it returns no rows, and in each case the
error propagates uncaught through the entry point instead of yielding a
normal result. -/
theorem c5_fetch_error (period : String) (fs : FS) :
    compute_data period FetchOutcome.unreachable = Except.error FetchError.network ∧
    compute_data period (FetchOutcome.rows []) = Except.error FetchError.provider ∧
    mainRun FetchOutcome.unreachable fs = Except.error FetchError.network ∧
    mainRun (FetchOutcome.rows []) fs = Except.error FetchError.provider :=
  ⟨rfl, rfl, rfl, rfl⟩

/-- C6: save_plots returns no value and its only effect is to ensure the
docs directory exists and to write the volume image and the rolling-skew
image at their two fixed paths, overwriting any prior file there; the
content of every other path is unchanged. -/
theorem c6_save_plots_effect (data : Frame) (fs : FS) (p : String)
    (h1 : p ≠ "docs/nvda_volume.png") (h2 : p ≠ "docs/nvda_skew.png") :
    (save_plots data fs).1 = () ∧
    (save_plots data fs).2.read "docs/nvda_volume.png" =
      some (Image.mk "NVDA Daily Volume - Last 6 Months" (data.bars.map Bar.volume)) ∧
    (save_plots data fs).2.read "docs/nvda_skew.png" =
      some (Image.mk "NVDA 30-Day Rolling Skew - Last 6 Months"
        (data.rolling_skew.filterMap id)) ∧
    (save_plots data fs).2.read p = fs.read p ∧
    (save_plots data fs).2.dirs =
      (if "docs" ∈ fs.dirs then fs.dirs else "docs" :: fs.dirs) := by
  rw [save_plots_eq]
  refine ⟨rfl, ?_, ?_, ?_, ?_⟩
  · rw [read_writeFile_other _ _ _ _ (by decide), read_writeFile_same]
  · rw [read_writeFile_same]
  · rw [read_writeFile_other _ _ _ _ h2, read_writeFile_other _ _ _ _ h1,
      read_mkdirExistOk]
  · rw [dirs_writeFile, dirs_writeFile]
    unfold mkdirExistOk
    split <;> simp [*]

/-- Witness for C6 on an empty frame, an empty filesystem and the
unrelated path other.png. -/
theorem c6_witness :
    (save_plots (Frame.mk [] [] []) (FS.mk [] [])).1 = () ∧
    (save_plots (Frame.mk [] [] []) (FS.mk [] [])).2.read "docs/nvda_volume.png" =
      some (Image.mk "NVDA Daily Volume - Last 6 Months"
        ((Frame.mk [] [] []).bars.map Bar.volume)) ∧
    (save_plots (Frame.mk [] [] []) (FS.mk [] [])).2.read "docs/nvda_skew.png" =
      some (Image.mk "NVDA 30-Day Rolling Skew - Last 6 Months"
        ((Frame.mk [] [] []).rolling_skew.filterMap id)) ∧
    (save_plots (Frame.mk [] [] []) (FS.mk [] [])).2.read "other.png" =
      (FS.mk [] []).read "other.png" ∧
    (save_plots (Frame.mk [] [] []) (FS.mk [] [])).2.dirs =
      (if "docs" ∈ (FS.mk [] [] : FS).dirs then (FS.mk [] [] : FS).dirs
        else "docs" :: (FS.mk [] [] : FS).dirs) :=
  c6_save_plots_effect (Frame.mk [] [] []) (FS.mk [] []) "other.png"
    (by decide) (by decide)

/-- C7: on a successful fetch the entry point runs the fetch of NVDA
bars for the hardcoded period at daily interval, the transform, the
render, and finally prints exactly one line carrying the scalar
skewness; its inputs are only the fetch outcome and the filesystem, with
no flags or further configuration. -/
theorem c7_main_trace (bars : List Bar) (fs : FS) (h : bars ≠ []) :
    mainRun (FetchOutcome.rows bars) fs =
      Except.ok
        ([Step.fetch "NVDA" PERIOD "1d", Step.transform, Step.render,
          Step.printed mainMessage (pandasSkew ((addColumns bars).log_return.filterMap id))],
          (save_plots (addColumns bars) fs).2) ∧
    ([Step.fetch "NVDA" PERIOD "1d", Step.transform, Step.render,
      Step.printed mainMessage
        (pandasSkew ((addColumns bars).log_return.filterMap id))].countP
          Step.isPrinted) = 1 := by
  obtain ⟨b, rest, rfl⟩ : ∃ b rest, bars = b :: rest := by
    cases bars with
    | nil => exact absurd rfl h
    | cons b rest => exact ⟨b, rest, rfl⟩
  exact ⟨rfl, rfl⟩

/-- Witness for C7 on a one-bar series and an empty filesystem. -/
theorem c7_witness :
    mainRun (FetchOutcome.rows [Bar.mk 0 1 1 1 1 1]) (FS.mk [] []) =
      Except.ok
        ([Step.fetch "NVDA" PERIOD "1d", Step.transform, Step.render,
          Step.printed mainMessage
            (pandasSkew ((addColumns [Bar.mk 0 1 1 1 1 1]).log_return.filterMap id))],
          (save_plots (addColumns [Bar.mk 0 1 1 1 1 1]) (FS.mk [] [])).2) ∧
    ([Step.fetch "NVDA" PERIOD "1d", Step.transform, Step.render,
      Step.printed mainMessage
        (pandasSkew ((addColumns [Bar.mk 0 1 1 1 1 1]).log_return.filterMap id))].countP
          Step.isPrinted) = 1 :=
  c7_main_trace [Bar.mk 0 1 1 1 1 1] (FS.mk [] []) (by simp)

/-- C8: the pandas skewness that compute_skew reduces the log-return
series with is invariant under every permutation of the series: the
sums it is built from are commutative. -/
theorem c8_skew_perm (xs ys : List ℝ) (h : xs.Perm ys) :
    pandasSkew xs = pandasSkew ys := by
  have hl : xs.length = ys.length := h.length_eq
  have hs : xs.sum = ys.sum := h.sum_eq
  unfold pandasSkew
  dsimp only
  rw [hl, hs]
  have h2 := (h.map fun x => (x - ys.sum / (ys.length : ℝ)) ^ 2).sum_eq
  have h3 := (h.map fun x => (x - ys.sum / (ys.length : ℝ)) ^ 3).sum_eq
  rw [h2, h3]

/-- Witness for C8 on the lists 1, 2, 3 and 2, 1, 3. -/
theorem c8_witness :
    pandasSkew [(1 : ℝ), 2, 3] = pandasSkew [(2 : ℝ), 1, 3] :=
  c8_skew_perm [(1 : ℝ), 2, 3] [(2 : ℝ), 1, 3] (List.Perm.swap 2 1 [3])

/-- C9: on every frame whose log_return column holds fewer than three
defined values, compute_skew returns normally with an undefined scalar
(NaN, here none) instead of failing. -/
theorem c9_small_sample (w : FetchOutcome) (period : String) (df : Frame)
    (h : (df.log_return.filterMap id).length < 3) :
    compute_skew w (some df) period = Except.ok none := by
  show Except.ok (pandasSkew (df.log_return.filterMap id)) = _
  rw [none_pandasSkew _ h]

/-- Witness for C9 on the frame built from the three-bar synthetic
series, whose log_return column holds two defined values. -/
theorem c9_witness :
    compute_skew (FetchOutcome.rows []) (some (addColumns sampleBars3)) PERIOD =
      Except.ok none :=
  c9_small_sample (FetchOutcome.rows []) PERIOD (addColumns sampleBars3)
    (by rw [log_return_addColumns,
      length_filterMap_logReturnCol _ (map_close_pos sampleBars3 sampleBars3_pos)]
        simp [sampleBars3])

/-- C10: compute_skew and save_plots leave their frame argument
unchanged: the frame state threaded through every step of their bodies
equals the input frame. -/
theorem c10_frame_preserved (df : Frame) (fs : FS) :
    (compute_skew_run df).2 = df ∧ (save_plots_run df fs).2.1 = df :=
  ⟨rfl, rfl⟩

end SkewNvda
